import Mathlib

/-!
Verification of the rule-based UI-generation pipeline
(intent extraction → plan construction → code emission → validation)
against its natural-language specification.

The Python sources are shallowly embedded: strings are Lean `String`s
(scanned as `List Char`), dictionaries with a fixed key set become
structures with `Option`-valued fields, ordered keyword tables become
association lists, and each `re` pattern used by the sources is embedded
as a dedicated scanner implementing exactly that pattern's `findall` /
`search` / `sub` behaviour.  Python `set` iteration (used only to
deduplicate) is modelled as first-occurrence deduplication; no verified
property depends on that iteration order.
-/

set_option maxRecDepth 20000

/-! ## Python string primitives -/

/-- Whitespace recognised by Python's `str.strip` / `\s` (ASCII range). -/
def isPySpace (c : Char) : Bool :=
  c = ' ' ∨ c = '\t' ∨ c = '\n' ∨ c = '\r' ∨ c = '\x0b' ∨ c = '\x0c'

/-- A regex word character `\w` (ASCII range): letter, digit or underscore. -/
def isWordChar (c : Char) : Bool :=
  c.isAlpha ∨ c.isDigit ∨ c = '_'

/-- Python `str.lower` (ASCII model). -/
def pyLower (s : String) : String :=
  String.mk (s.data.map Char.toLower)

/-- Python `str.strip`: drop leading and trailing whitespace. -/
def pyStrip (s : String) : String :=
  String.mk (((s.data.dropWhile isPySpace).reverse.dropWhile isPySpace).reverse)

/-- Contiguous-substring test on character lists. -/
def strContains : List Char → List Char → Bool
  | n, [] => n.isEmpty
  | n, h :: t => n.isPrefixOf (h :: t) || strContains n t

/-- Python `needle in hay` for strings. -/
def pyIn (needle hay : String) : Bool :=
  strContains needle.data hay.data

/-- Python `s.split('.')[0]`: the text before the first dot. -/
def splitDotHead (s : String) : String :=
  String.mk (s.data.takeWhile (fun c => c ≠ '.'))

/-- Digit run to the number it denotes, as Python `int` on a digit string. -/
def digitsToNat (l : List Char) : Nat :=
  l.foldl (fun n c => 10 * n + (c.toNat - '0'.toNat)) 0

/-! ## Embedded scanners for the `re` patterns used by the sources

Each scanner mimics one fixed pattern's behaviour: scanning left to
right, attempting a match at each position, continuing after the match
on success and one character further on failure, exactly as `re.findall`
/ `re.sub` do for these patterns.  Each `…Aux` takes a fuel argument so
that the recursion is structural (and so reduces definitionally); the
entry point supplies `l.length` fuel, which always suffices because
every recursive call passes a strictly shorter list.  -/

/-- Split at the first `'>'`: `some (before, after)` with no `'>'` in
`before`, or `none` when there is no `'>'`. -/
def breakAtGt : List Char → Option (List Char × List Char)
  | [] => none
  | c :: r =>
    if c = '>' then some ([], r)
    else (breakAtGt r).map (fun p => (c :: p.1, p.2))

/-- Scan to the first `'/'` or `'>'`; `some (isGt, after)` tells which
barrier was hit and returns the rest after it. -/
def breakSlashGt : List Char → Option (Bool × List Char)
  | [] => none
  | c :: r =>
    if c = '>' then some (true, r)
    else if c = '/' then some (false, r)
    else breakSlashGt r

/-- Split at the first `'\n'`: `(before, remainder-starting-at-the-newline)`. -/
def breakAtNl : List Char → List Char × List Char
  | [] => ([], [])
  | c :: r =>
    if c = '\n' then ([], c :: r)
    else
      let p := breakAtNl r
      (c :: p.1, p.2)

/-- `re.findall(r'<(\w+)[^/>]*>', code)`: names of opening JSX tags.  A
match needs `'<'`, a non-empty word run, then a first barrier character
that is `'>'` (a `'/'` first means no match, e.g. a self-closing tag). -/
def openTagsAux : Nat → List Char → List String
  | 0, _ => []
  | _, [] => []
  | fuel + 1, c :: rest =>
    if c = '<' then
      if (rest.takeWhile isWordChar).isEmpty then openTagsAux fuel rest
      else match breakSlashGt (rest.dropWhile isWordChar) with
        | some (true, r2) => String.mk (rest.takeWhile isWordChar) :: openTagsAux fuel r2
        | _ => openTagsAux fuel rest
    else openTagsAux fuel rest

def openTags (l : List Char) : List String := openTagsAux l.length l

/-- `re.findall(r'</(\w+)>', code)`: names of closing JSX tags.  The
word run must be followed immediately by `'>'` (a dot, as in
`</Card.Title>`, defeats the match). -/
def closeTagsAux : Nat → List Char → List String
  | 0, _ => []
  | _, [] => []
  | fuel + 1, '<' :: '/' :: rest =>
    if (rest.takeWhile isWordChar).isEmpty then closeTagsAux fuel ('/' :: rest)
    else match rest.dropWhile isWordChar with
      | '>' :: rr => String.mk (rest.takeWhile isWordChar) :: closeTagsAux fuel rr
      | _ => closeTagsAux fuel ('/' :: rest)
  | fuel + 1, _ :: rest => closeTagsAux fuel rest

def closeTags (l : List Char) : List String := closeTagsAux l.length l

/-- `re.findall(r'<(\w+)[^>]*/>', code)`: names of self-closing tags.  A
match needs `'<'`, a non-empty word run, and the first following `'>'`
must be immediately preceded by `'/'` (strictly after the word run). -/
def selfTagsAux : Nat → List Char → List String
  | 0, _ => []
  | _, [] => []
  | fuel + 1, c :: rest =>
    if c = '<' then
      if (rest.takeWhile isWordChar).isEmpty then selfTagsAux fuel rest
      else match breakAtGt (rest.dropWhile isWordChar) with
        | some (bef, aft) =>
          if bef.getLast? = some '/' then
            String.mk (rest.takeWhile isWordChar) :: selfTagsAux fuel aft
          else selfTagsAux fuel rest
        | none => selfTagsAux fuel rest
    else selfTagsAux fuel rest

def selfTags (l : List Char) : List String := selfTagsAux l.length l

/-- `re.findall(r'<(\w+)', code)`: every `'<'` directly followed by a
word run yields that (maximal) run. -/
def ltTagsAux : Nat → List Char → List String
  | 0, _ => []
  | _, [] => []
  | fuel + 1, c :: rest =>
    if c = '<' then
      if (rest.takeWhile isWordChar).isEmpty then ltTagsAux fuel rest
      else String.mk (rest.takeWhile isWordChar) :: ltTagsAux fuel (rest.dropWhile isWordChar)
    else ltTagsAux fuel rest

def ltTags (l : List Char) : List String := ltTagsAux l.length l

/-- `re.findall(r'<Button[^>]*>', code)`: each occurrence of `<Button`
extended through the first following `'>'`, the full matched text. -/
def buttonTagsAux : Nat → List Char → List (List Char)
  | 0, _ => []
  | _, [] => []
  | fuel + 1, c :: rest =>
    if ('<' :: 'B' :: 'u' :: 't' :: 't' :: 'o' :: 'n' :: []).isPrefixOf (c :: rest) then
      match breakAtGt (List.drop 7 (c :: rest)) with
      | some (bef, aft) =>
        (('<' :: 'B' :: 'u' :: 't' :: 't' :: 'o' :: 'n' :: []) ++ bef ++ ['>']) ::
          buttonTagsAux fuel aft
      | none => buttonTagsAux fuel rest
    else buttonTagsAux fuel rest

def buttonTags (l : List Char) : List (List Char) := buttonTagsAux l.length l

/-- `re.search(r'export default function [A-Z]\w+', code) is not None`. -/
def pascalHit : List Char → Bool
  | [] => false
  | c :: rest =>
    if "export default function ".data.isPrefixOf (c :: rest) then
      match List.drop 24 (c :: rest) with
      | a :: b :: _ => if a.isUpper ∧ isWordChar b then true else pascalHit rest
      | _ => pascalHit rest
    else pascalHit rest

/-- First match of `re.findall(r'\b(\d+)\b', text)` (the pattern used by
`intent_parser.py`): the first maximal digit run with a non-word
character (or a string end) on both sides.  `prevWord` records whether
the character before the current position is a word character. -/
def firstNumAux : Nat → Bool → List Char → Option (List Char)
  | 0, _, _ => none
  | _, _, [] => none
  | fuel + 1, prevWord, c :: r =>
    if c.isDigit ∧ ¬ prevWord then
      match (c :: r).dropWhile Char.isDigit with
      | [] => some ((c :: r).takeWhile Char.isDigit)
      | d :: rest2 =>
        if isWordChar d then firstNumAux fuel true (d :: rest2)
        else some ((c :: r).takeWhile Char.isDigit)
    else firstNumAux fuel (isWordChar c) r

def firstNum (l : List Char) : Option (List Char) := firstNumAux l.length false l

/-- Is this the tail `\\b` (a literal backslash then `b`)? -/
def escTailHit : List Char → Bool
  | '\\' :: 'b' :: _ => true
  | _ => false

/-- First capture of `re.findall(r'\\b(\\d+)\\b', text)`, the doubly
escaped pattern of the copies inlined in `planner.py` and
`backend/code_generator.py`.  Every backslash in the pattern is doubled,
so each `\\` matches one literal backslash and `d+` is the plain letter
`d` repeated: the pattern matches literal `\b\d…d\b` text, and the
capture is one backslash followed by the `d` run — never a digit
sequence. -/
def firstEscNum : List Char → Option (List Char)
  | [] => none
  | '\\' :: 'b' :: r2 =>
    (match r2 with
     | '\\' :: r3 =>
       if ¬ (r3.takeWhile (fun c => c = 'd')).isEmpty ∧
           escTailHit (r3.dropWhile (fun c => c = 'd')) then
         some ('\\' :: r3.takeWhile (fun c => c = 'd'))
       else firstEscNum ('b' :: r2)
     | _ => firstEscNum ('b' :: r2))
  | '\\' :: r => firstEscNum r
  | _ :: r => firstEscNum r

/-- `re.sub(r'(import .+)(?<!;)$', r'\1;', code, flags=re.MULTILINE)`:
append a semicolon to every line tail starting at `import ` that is
non-empty and does not already end in a semicolon. -/
def fixImportsAux : Nat → List Char → List Char
  | 0, l => l
  | _, [] => []
  | fuel + 1, c :: rest =>
    if "import ".data.isPrefixOf (c :: rest) then
      match breakAtNl (List.drop 7 (c :: rest)) with
      | (line, rest2) =>
        if ¬ line.isEmpty ∧ line.getLast? ≠ some ';' then
          "import ".data ++ line ++ [';'] ++ fixImportsAux fuel rest2
        else c :: fixImportsAux fuel rest
    else c :: fixImportsAux fuel rest

def fixImports (l : List Char) : List Char := fixImportsAux l.length l

/-- `re.sub(r'([>}])\s*([<{])', r'\1\n\2', code)`: between a `'>'` or
`'\x7d'` and a next `'<'` or `'\x7b'` separated only by whitespace, the
whitespace is replaced by one newline. -/
def fixSpacingAux : Nat → List Char → List Char
  | 0, l => l
  | _, [] => []
  | fuel + 1, c :: rest =>
    if c = '>' ∨ c = '\x7d' then
      match rest.dropWhile isPySpace with
      | d :: tl =>
        if d = '<' ∨ d = '\x7b' then c :: '\n' :: d :: fixSpacingAux fuel tl
        else c :: fixSpacingAux fuel rest
      | [] => c :: fixSpacingAux fuel rest
    else c :: fixSpacingAux fuel rest

def fixSpacing (l : List Char) : List Char := fixSpacingAux l.length l

/-- First-occurrence deduplication, the model of Python's
`set`-based deduplication used by the sources (iteration order of a
Python `set` is unspecified; nothing verified below depends on it). -/
def pyDedupAux : Nat → List String → List String
  | 0, _ => []
  | _, [] => []
  | fuel + 1, x :: r => x :: pyDedupAux fuel (r.filter (fun y => y ≠ x))

def pyDedup (l : List String) : List String := pyDedupAux l.length l

/-! ## Lexicon (`intent_parser.py`, keyword tables)

Ordered association lists mirror the Python class-level dicts; lookup
priority is table order, as in the sources. -/

abbrev KeywordTable := List (String × List String)

def ACTIONS : KeywordTable :=
  [("create", ["create", "make", "build", "generate", "new"]),
   ("add", ["add", "include", "insert", "put"]),
   ("modify", ["change", "update", "modify", "edit", "alter"]),
   ("remove", ["remove", "delete", "take out", "get rid of"])]

def UI_TYPES : KeywordTable :=
  [("dashboard", ["dashboard", "overview", "summary", "analytics"]),
   ("form", ["form", "input form", "registration", "signup", "login"]),
   ("table", ["table", "data table", "grid", "list"]),
   ("card", ["card", "info card", "profile card"]),
   ("navbar", ["navbar", "navigation", "menu", "header"]),
   ("sidebar", ["sidebar", "side menu", "drawer"]),
   ("modal", ["modal", "dialog", "popup", "overlay"]),
   ("button", ["button", "btn", "action button"]),
   ("chart", ["chart", "graph", "visualization", "plot"])]

def COMPONENTS : KeywordTable :=
  [("Button", ["button", "btn", "submit", "action"]),
   ("Card", ["card", "panel", "box"]),
   ("Input", ["input", "textbox", "field", "text field"]),
   ("Table", ["table", "data table", "grid"]),
   ("Chart", ["chart", "graph", "bar chart", "line chart", "pie chart"]),
   ("Navbar", ["navbar", "navigation", "top bar", "header"]),
   ("Sidebar", ["sidebar", "side panel", "drawer"]),
   ("Modal", ["modal", "dialog", "popup"])]

def LAYOUTS : KeywordTable :=
  [("grid", ["grid", "tiles", "cards"]),
   ("flex", ["flex", "flexible", "row", "column"]),
   ("stack", ["stack", "vertical", "horizontal"]),
   ("split", ["split", "divided", "sections"])]

def VARIANTS : KeywordTable :=
  [("primary", ["primary", "main", "important"]),
   ("secondary", ["secondary", "alternate"]),
   ("outline", ["outline", "outlined", "border"]),
   ("ghost", ["ghost", "transparent", "minimal"])]

def COLORS : KeywordTable :=
  [("blue", ["blue"]),
   ("red", ["red", "danger", "error"]),
   ("green", ["green", "success"]),
   ("yellow", ["yellow", "warning"]),
   ("gray", ["gray", "grey", "neutral"])]

/-- First category (in table order) one of whose keyword substrings
occurs in the text, as the `for …: if any(…)` loops of the sources. -/
def matchCat (tbl : KeywordTable) (t : String) : Option String :=
  tbl.findSome? fun p => if p.2.any (fun kw => pyIn kw t) then some p.1 else none

/-! ## Intent extraction (`intent_parser.py`, class `IntentParser`) -/

/-- The `modifiers` dict: its only possible keys are `variant`, `color`,
`size` and `count`; an absent key is `none`. -/
structure Modifiers where
  variant : Option String := none
  color : Option String := none
  size : Option String := none
  count : Option Nat := none
deriving DecidableEq, Repr

/-- Python truthiness of the `modifiers` dict: some key present. -/
def Modifiers.nonempty (m : Modifiers) : Bool :=
  m.variant.isSome ∨ m.color.isSome ∨ m.size.isSome ∨ m.count.isSome

structure Intent where
  primary_action : String
  ui_type : String
  components : List String
  layout : String
  modifiers : Modifiers
  confidence : ℚ
deriving DecidableEq, Repr

def extract_action (t : String) : String :=
  (matchCat ACTIONS t).getD "create"

def extract_ui_type (t : String) : String :=
  match matchCat UI_TYPES t with
  | some u => u
  | none =>
    if pyIn "input" t ∧ pyIn "button" t then "form"
    else if pyIn "card" t ∨ pyIn "kpi" t then "dashboard"
    else "generic"

def infer_components_from_ui_type (ui_type : String) : List String :=
  if ui_type = "dashboard" then ["Card", "Chart"]
  else if ui_type = "form" then ["Input", "Button"]
  else if ui_type = "table" then ["Table"]
  else if ui_type = "card" then ["Card"]
  else if ui_type = "navbar" then ["Navbar"]
  else if ui_type = "sidebar" then ["Sidebar"]
  else if ui_type = "modal" then ["Modal", "Button"]
  else if ui_type = "button" then ["Button"]
  else if ui_type = "chart" then ["Chart"]
  else ["Card"]

/-- The `found_components` accumulation loop of
`IntentParser._extract_components`. -/
def found_components (t : String) : List String :=
  COMPONENTS.foldl
    (fun acc p =>
      if p.2.any (fun kw => pyIn kw t) ∧ ¬ acc.contains p.1 then acc ++ [p.1] else acc)
    []

def extract_components (t : String) : List String :=
  if (found_components t).isEmpty then
    infer_components_from_ui_type (extract_ui_type t)
  else found_components t

def extract_layout (t : String) : String :=
  (matchCat LAYOUTS t).getD "flex"

def extract_size (t : String) : Option String :=
  if pyIn "large" t ∨ pyIn "big" t then some "large"
  else if pyIn "small" t ∨ pyIn "tiny" t then some "small"
  else none

/-- `int(numbers[0])` for `re.findall(r'\b(\d+)\b', text)`, the count
extraction of `intent_parser.py`. -/
def count_from_text (t : String) : Option Nat :=
  (firstNum t.data).map digitsToNat

/-- `IntentParser._extract_modifiers` of `intent_parser.py`. -/
def extract_modifiers (t : String) : Modifiers :=
  { variant := matchCat VARIANTS t
    color := matchCat COLORS t
    size := extract_size t
    count := count_from_text t }

/-- `IntentParser._extract_modifiers` of the copies inlined in
`planner.py` and `backend/code_generator.py` — verbatim identical to
`intent_parser.py`'s except for the doubly escaped count regex.  When
that regex matches, its capture is a backslash followed by letters `d`,
so the source's `int(numbers[0])` always raises `ValueError`: the copy
is fallible, embedded as `Except` (the error carries the offending
capture; Python's repr-quoting of the message is not reproduced).  When
it does not match, no count is ever set. -/
def extract_modifiers_copy (t : String) : Except String Modifiers :=
  match firstEscNum t.data with
  | some cap =>
    .error ("invalid literal for int() with base 10: " ++ String.mk cap)
  | none =>
    .ok { variant := matchCat VARIANTS t
          color := matchCat COLORS t
          size := extract_size t
          count := none }

/-- `IntentParser._calculate_confidence`: the sequential `score +=`
accumulation written as a sum of its three conditional increments. -/
def calculate_confidence (action ui_type : String) (components : List String) : ℚ :=
  min ((0.5 : ℚ) + (if action ≠ "create" then (0.1 : ℚ) else 0) +
    (if ui_type ≠ "generic" then (0.2 : ℚ) else 0) +
    (if ¬ components.isEmpty then (0.2 : ℚ) else 0)) 1

/-- `IntentParser.parse` of `intent_parser.py` (the parser used by the
`main.py` pipeline). -/
def parse (user_input : String) : Intent :=
  let t := pyStrip (pyLower user_input)
  let action := extract_action t
  let ui_type := extract_ui_type t
  let components := extract_components t
  let layout := extract_layout t
  let modifiers := extract_modifiers t
  let confidence := calculate_confidence action ui_type components
  { primary_action := action, ui_type := ui_type, components := components,
    layout := layout, modifiers := modifiers, confidence := confidence }

/-- `IntentParser.parse` of the copies inlined in `planner.py` and in
`backend/code_generator.py` (checked identical to each other): verbatim
`intent_parser.py` except for the count regex in `_extract_modifiers`,
whose `int()` call can raise — so this parse is fallible. -/
def parse_copy (user_input : String) : Except String Intent :=
  let t := pyStrip (pyLower user_input)
  let action := extract_action t
  let ui_type := extract_ui_type t
  let components := extract_components t
  let layout := extract_layout t
  match extract_modifiers_copy t with
  | .error e => .error e
  | .ok modifiers =>
    let confidence := calculate_confidence action ui_type components
    .ok { primary_action := action, ui_type := ui_type, components := components,
          layout := layout, modifiers := modifiers, confidence := confidence }

/-! ## Plan construction (`planner.py`, class `Planner`) -/

/-- A primitive JSON-serialisable value appearing in the sample data
rows: a string or an integer. -/
inductive JPrim where
  | s (v : String)
  | n (v : Int)
deriving DecidableEq, Repr

/-- One sample data row: an insertion-ordered dict of primitives. -/
abbrev Row := List (String × JPrim)

/-- The `props` dict of a component plan.  The sources only ever store
and read this fixed key set; an absent key is `none`. -/
structure Props where
  variant : Option String := none
  color : Option String := none
  size : Option String := none
  children : Option String := none
  title : Option String := none
  content : Option String := none
  className : Option String := none
  label : Option String := none
  placeholder : Option String := none
  columns : Option (List String) := none
  data : Option (List Row) := none
  type : Option String := none
  brand : Option String := none
  links : Option (List String) := none
  items : Option (List String) := none
deriving DecidableEq, Repr

/-- The `position` dict `{'row': …, 'col': …}`. -/
structure Pos where
  row : Nat
  col : Nat
deriving DecidableEq, Repr

/-- `ComponentPlan` of `planner.py` (`children` is structurally present
but always built empty by the sources). -/
inductive ComponentPlan where
  | mk (type : String) (props : Props) (children : List ComponentPlan) (position : Pos)
deriving Repr

def ComponentPlan.type : ComponentPlan → String
  | .mk t _ _ _ => t

def ComponentPlan.props : ComponentPlan → Props
  | .mk _ p _ _ => p

def ComponentPlan.position : ComponentPlan → Pos
  | .mk _ _ _ q => q

/-- One entry of a template's `default_components` list. -/
structure CompDef where
  type : String
  count : Option Nat := none
  variant : Option String := none
deriving DecidableEq, Repr

/-- One registered template: layout, container dict and defaults. -/
structure Template where
  layout : String
  container : List (String × String)
  default_components : List CompDef
deriving DecidableEq, Repr

def dashboardTemplate : Template :=
  { layout := "grid"
    container := [("className", "grid grid-cols-1 md:grid-cols-2 lg:grid-cols-3 gap-4 p-6")]
    default_components :=
      [{ type := "Card", count := some 3, variant := some "stats" },
       { type := "Chart", count := some 2, variant := some "line" }] }

def formTemplate : Template :=
  { layout := "stack"
    container := [("className", "max-w-md mx-auto p-6 space-y-4")]
    default_components :=
      [{ type := "Input", count := some 3 },
       { type := "Button", count := some 1, variant := some "primary" }] }

def tableTemplate : Template :=
  { layout := "flex"
    container := [("className", "w-full p-6")]
    default_components := [{ type := "Table", count := some 1 }] }

def navbarTemplate : Template :=
  { layout := "flex"
    container := [("className", "w-full")]
    default_components := [{ type := "Navbar", count := some 1 }] }

def TEMPLATES : List (String × Template) :=
  [("dashboard", dashboardTemplate), ("form", formTemplate),
   ("table", tableTemplate), ("navbar", navbarTemplate)]

/-- `self.TEMPLATES.get(intent.ui_type, self.TEMPLATES['form'])`. -/
def getTemplate (ui_type : String) : Template :=
  (TEMPLATES.lookup ui_type).getD formTemplate

/-- The `base_props` dict of `Planner._create_component_plan`: resolved
default property sets per kind; an unknown kind gets the empty dict. -/
def base_props (component_type : String) (modifiers : Modifiers) : Props :=
  if component_type = "Button" then
    { variant := some (modifiers.variant.getD "primary"), children := some "Click me" }
  else if component_type = "Card" then
    { title := some "Card Title", className := some "p-4" }
  else if component_type = "Input" then
    { label := some "Input Label", placeholder := some "Enter value..." }
  else if component_type = "Table" then
    { columns := some ["Name", "Email", "Role", "Status"]
      data := some
        [[("name", .s "John Doe"), ("email", .s "john@example.com"),
          ("role", .s "Admin"), ("status", .s "Active")],
         [("name", .s "Jane Smith"), ("email", .s "jane@example.com"),
          ("role", .s "User"), ("status", .s "Active")]] }
  else if component_type = "Chart" then
    { type := some "line"
      data := some
        [[("name", .s "Jan"), ("value", .n 400)],
         [("name", .s "Feb"), ("value", .n 300)],
         [("name", .s "Mar"), ("value", .n 600)]] }
  else if component_type = "Navbar" then
    { brand := some "My App", links := some ["Home", "About", "Contact"] }
  else if component_type = "Sidebar" then
    { items := some ["Dashboard", "Profile", "Settings"] }
  else if component_type = "Modal" then
    { title := some "Modal Title", children := some "Modal content goes here" }
  else {}

/-- `Planner._create_component_plan`: base props overlaid (in order) by
the modifier-supplied `variant`, `color` and `size` when present. -/
def create_component_plan (component_type : String) (modifiers : Modifiers)
    (position : Pos) : ComponentPlan :=
  let props := base_props component_type modifiers
  let props := match modifiers.variant with
    | some v => { props with variant := some v }
    | none => props
  let props := match modifiers.color with
    | some c => { props with color := some c }
    | none => props
  let props := match modifiers.size with
    | some s => { props with size := some s }
    | none => props
  ComponentPlan.mk component_type props [] position

/-- `Planner._plan_components`: user-named components, else template
defaults with the per-definition position restart. -/
def plan_components (intent : Intent) (template : Template) : List ComponentPlan :=
  match intent.components with
  | [] =>
    template.default_components.flatMap fun comp_def =>
      (List.range (comp_def.count.getD 1)).map fun i =>
        create_component_plan comp_def.type
          { variant := some (comp_def.variant.getD "default") }
          { row := i / 3, col := i % 3 }
  | cs =>
    cs.enum.map fun p =>
      create_component_plan p.2 intent.modifiers { row := p.1 / 3, col := p.1 % 3 }

def mkImport (comp_type : String) : String :=
  "import " ++ comp_type ++ " from '@/components/ui/" ++ comp_type ++ "';"

def rechartsImport : String :=
  "import \x7b LineChart, Line, BarChart, Bar, XAxis, YAxis, CartesianGrid, Tooltip \x7d from 'recharts';"

/-- `Planner._determine_imports`: one import line per distinct planned
kind (the Python `set` modelled as first-occurrence dedup) plus the
recharts line when a Chart is planned. -/
def determine_imports (components : List ComponentPlan) : List String :=
  let component_types := pyDedup (components.map ComponentPlan.type)
  component_types.map mkImport ++
    (if component_types.contains "Chart" then [rechartsImport] else [])

/-- Python `str` of the modifiers dict, keys in insertion order
(`variant`, `color`, `size`, `count` — the order `_extract_modifiers`
sets them). -/
def modsRepr (m : Modifiers) : String :=
  let entries :=
    (match m.variant with | some v => ["'variant': '" ++ v ++ "'"] | none => []) ++
    (match m.color with | some v => ["'color': '" ++ v ++ "'"] | none => []) ++
    (match m.size with | some v => ["'size': '" ++ v ++ "'"] | none => []) ++
    (match m.count with | some n => ["'count': " ++ toString n] | none => [])
  "\x7b" ++ String.intercalate ", " entries ++ "\x7d"

/-- `Planner._generate_reasoning`. -/
def generate_reasoning (intent : Intent) (components : List ComponentPlan) : String :=
  let component_names := components.map ComponentPlan.type
  let unique_components := pyDedup component_names
  let reasoning := "Created a " ++ intent.ui_type ++ " layout using " ++
    toString components.length ++ " component(s): " ++
    String.intercalate ", " unique_components ++ ". "
  let reasoning := if intent.layout ≠ "" then
    reasoning ++ "Arranged in a " ++ intent.layout ++ " layout. " else reasoning
  let reasoning := if intent.modifiers.nonempty then
    reasoning ++ "Applied modifiers: " ++ modsRepr intent.modifiers ++ "." else reasoning
  reasoning

/-- `UIPlan` of `planner.py`. -/
structure UIPlan where
  layout_type : String
  container_props : List (String × String)
  components : List ComponentPlan
  imports : List String
  reasoning : String
deriving Repr

/-- `Planner.create_plan`. -/
def create_plan (intent : Intent) : UIPlan :=
  let template := getTemplate intent.ui_type
  let container_props := template.container
  let components := plan_components intent template
  let imports := determine_imports components
  let reasoning := generate_reasoning intent components
  { layout_type := template.layout, container_props := container_props,
    components := components, imports := imports, reasoning := reasoning }

/-! ## Code emission (`backend/code_generator.py`, class `CodeGenerator`;
the copy inlined in `backend/main.py` is identical) -/

/-- JSON string escaping for the characters that can occur in the data
values the sources serialise. -/
def jsonEscapeChar (c : Char) : String :=
  if c = '\\' then "\\\\"
  else if c = '"' then "\\\""
  else if c = '\n' then "\\n"
  else if c = '\t' then "\\t"
  else if c = '\r' then "\\r"
  else String.singleton c

def jsonEscape (s : String) : String :=
  String.join (s.data.map jsonEscapeChar)

def dumpPrim : JPrim → String
  | .s v => "\"" ++ jsonEscape v ++ "\""
  | .n v => toString v

/-- `json.dumps` of one row dict at `indent=2` nesting depth 1. -/
def dumpRow (r : Row) : String :=
  match r with
  | [] => "  \x7b\x7d"
  | _ =>
    "  \x7b\n" ++
      String.intercalate ",\n"
        (r.map fun kv => "    \"" ++ jsonEscape kv.1 ++ "\": " ++ dumpPrim kv.2) ++
      "\n  \x7d"

/-- `json.dumps(data, indent=2)` for a list of row dicts. -/
def dumpsRows (rows : List Row) : String :=
  match rows with
  | [] => "[]"
  | _ => "[\n" ++ String.intercalate ",\n" (rows.map dumpRow) ++ "\n]"

def generate_button (props : Props) : String :=
  let variant := props.variant.getD "primary"
  let children := props.children.getD "Button"
  "<Button variant=\"" ++ variant ++ "\">" ++ children ++ "</Button>"

def generate_card (props : Props) : String :=
  let title := props.title.getD "Card Title"
  let content := props.content.getD "Card content goes here."
  "<Card>\n  <Card.Title>" ++ title ++ "</Card.Title>\n  <Card.Content>\n    <p>" ++
    content ++ "</p>\n  </Card.Content>\n</Card>"

def generate_input (props : Props) : String :=
  let label := props.label.getD "Label"
  let placeholder := props.placeholder.getD "Enter value..."
  "<Input label=\"" ++ label ++ "\" placeholder=\"" ++ placeholder ++ "\" />"

/-- `col.lower().replace(" ", "_")`: with a one-character needle and
replacement, `str.replace` is the character-wise map. -/
def underscoreSpaces (s : String) : String :=
  String.mk (s.data.map fun c => if c = ' ' then '_' else c)

/-- One `{ header: …, accessor: … }` column definition of the Table
emitter. -/
def colDef (col : String) : String :=
  "\x7b header: \"" ++ col ++ "\", accessor: \"" ++
    underscoreSpaces (pyLower col) ++ "\" \x7d"

/-- `CodeGenerator._generate_table`.  The serialised `data_str` is
computed and then (as in the source) never interpolated: the emitted
attribute is the literal identifier reference `data={data}`. -/
def generate_table (props : Props) : String :=
  let columns := props.columns.getD ["Column 1", "Column 2"]
  let data := props.data.getD []
  let col_defs := String.intercalate ", " (columns.map colDef)
  let _data_str := dumpsRows data
  "<Table>\n  columns=\x7b[" ++ col_defs ++ "]\x7d\n  data=\x7bdata\x7d\n/>"

def generate_chart (props : Props) : String :=
  let chart_type := props.type.getD "line"
  let data := props.data.getD []
  let data_str := dumpsRows data
  if chart_type = "line" then
    "<Chart type=\"line\" data=\x7b" ++ data_str ++ "\x7d />"
  else if chart_type = "bar" then
    "<Chart type=\"bar\" data=\x7b" ++ data_str ++ "\x7d />"
  else
    "<Chart type=\"line\" data=\x7b" ++ data_str ++ "\x7d />"

def generate_navbar (props : Props) : String :=
  let brand := props.brand.getD "Brand"
  let links := props.links.getD ["Home", "About"]
  "<Navbar brand=\"" ++ brand ++ "\">\n  " ++
    String.intercalate " "
      (links.map fun link => "<Navbar.Link>" ++ link ++ "</Navbar.Link>") ++
    "\n</Navbar>"

def generate_sidebar (props : Props) : String :=
  let items := props.items.getD ["Item 1", "Item 2"]
  "<Sidebar>\n  " ++
    String.intercalate "\n  "
      (items.map fun item => "<Sidebar.Item>" ++ item ++ "</Sidebar.Item>") ++
    "\n</Sidebar>"

def generate_modal (props : Props) : String :=
  let title := props.title.getD "Modal Title"
  let children := props.children.getD "Modal content"
  "<Modal>\n  <Modal.Title>" ++ title ++ "</Modal.Title>\n  <Modal.Content>\n    <p>" ++
    children ++
    "</p>\n  </Modal.Content>\n  <Modal.Footer>\n    <Button variant=\"primary\">Save</Button>\n    <Button variant=\"secondary\">Cancel</Button>\n  </Modal.Footer>\n</Modal>"

/-- `CodeGenerator._generate_component_jsx`: dispatch on the kind. -/
def generate_component_jsx (comp_plan : ComponentPlan) : String :=
  let comp_type := comp_plan.type
  let props := comp_plan.props
  if comp_type = "Button" then generate_button props
  else if comp_type = "Card" then generate_card props
  else if comp_type = "Input" then generate_input props
  else if comp_type = "Table" then generate_table props
  else if comp_type = "Chart" then generate_chart props
  else if comp_type = "Navbar" then generate_navbar props
  else if comp_type = "Sidebar" then generate_sidebar props
  else if comp_type = "Modal" then generate_modal props
  else "<div>Unsupported component: " ++ comp_type ++ "</div>"

/-- Split a character list at every newline, as Python
`text.split('\n')`. -/
def splitLines : List Char → List (List Char)
  | [] => [[]]
  | c :: rest =>
    if c = '\n' then [] :: splitLines rest
    else match splitLines rest with
      | h :: t => (c :: h) :: t
      | [] => [[c]]

/-- `CodeGenerator._indent`: prepend `spaces` blanks to every line whose
stripped text is non-empty. -/
def indentLines (text : String) (spaces : Nat) : String :=
  let ind := String.mk (List.replicate spaces ' ')
  String.intercalate "\n"
    ((splitLines text.data).map fun line =>
      if ¬ ((pyStrip (String.mk line)).data.isEmpty) then ind ++ String.mk line
      else String.mk line)

/-- `CodeGenerator._generate_component`. -/
def generate_component (plan : UIPlan) : String :=
  let components_jsx := plan.components.map generate_component_jsx
  let container_class := (plan.container_props.lookup "className").getD ""
  "export default function GeneratedComponent() \x7b\n  return (\n    <div className=\"" ++
    container_class ++ "\">\n" ++
    indentLines (String.intercalate "\n" components_jsx) 6 ++
    "\n    </div>\n  );\n\x7d"

/-- `CodeGenerator._generate_imports`. -/
def generate_imports (imports : List String) : String :=
  if imports.isEmpty then "" else String.intercalate "\n" imports

/-- `CodeGenerator.generate`. -/
def generate (plan : UIPlan) : String :=
  generate_imports plan.imports ++ "\n\n" ++ generate_component plan

/-! ## Structural validation (`code_validator.py`, class `CodeValidator`) -/

structure ValidationResult where
  is_valid : Bool
  errors : List String
  warnings : List String
  suggestions : List String
deriving DecidableEq, Repr

def ALLOWED_COMPONENTS : List String :=
  ["Button", "Card", "Input", "Table", "Chart", "Navbar", "Sidebar", "Modal"]

def REQUIRED_IMPORTS : List (String × String) :=
  [("Button", "import Button from '@/components/ui/Button';"),
   ("Card", "import Card from '@/components/ui/Card';"),
   ("Input", "import Input from '@/components/ui/Input';"),
   ("Table", "import Table from '@/components/ui/Table';"),
   ("Chart", "import Chart from '@/components/ui/Chart';"),
   ("Navbar", "import Navbar from '@/components/ui/Navbar';"),
   ("Sidebar", "import Sidebar from '@/components/ui/Sidebar';"),
   ("Modal", "import Modal from '@/components/ui/Modal';")]

/-- `CodeValidator._check_syntax`: tag balance by the three regex scans,
brace and parenthesis counts, and the `export default` presence. -/
def check_syntax (code : String) : List String :=
  let cs := code.data
  let open_tags0 := openTags cs
  let close_tags := closeTags cs
  let self_closing := selfTags cs
  let open_tags := self_closing.foldl (fun acc tag => acc.erase tag) open_tags0
  (if open_tags.length ≠ close_tags.length then
    ["Mismatched JSX tags: " ++ toString open_tags.length ++ " open, " ++
      toString close_tags.length ++ " close"] else []) ++
  (if cs.count '\x7b' ≠ cs.count '\x7d' then
    ["Mismatched braces: " ++ toString (cs.count '\x7b') ++ " open, " ++
      toString (cs.count '\x7d') ++ " close"] else []) ++
  (if cs.count '(' ≠ cs.count ')' then
    ["Mismatched parentheses: " ++ toString (cs.count '(') ++ " open, " ++
      toString (cs.count ')') ++ " close"] else []) ++
  (if ¬ pyIn "export default" code then ["Missing 'export default' statement"] else [])

def HTML_ELEMENTS : List String :=
  ["div", "span", "p", "h1", "h2", "h3", "section", "article"]

/-- `CodeValidator._check_components`: every non-HTML tag name found by
`<(\w+)` must (after dropping a dotted suffix) be an allowed kind. -/
def check_components (code : String) : List String :=
  let components_used := (ltTags code.data).filter fun c => ¬ HTML_ELEMENTS.contains c
  (pyDedup components_used).filterMap fun component =>
    let base_component := splitDotHead component
    if ¬ ALLOWED_COMPONENTS.contains base_component then
      some ("Unauthorized component used: " ++ component)
    else none

/-- `CodeValidator._check_imports`: each allowed component used needs
its canonical import line verbatim in the text. -/
def check_imports (code : String) : List String :=
  let components_used := (ltTags code.data).map splitDotHead
  (pyDedup components_used).filterMap fun component =>
    if ALLOWED_COMPONENTS.contains component ∧
        ¬ pyIn ((REQUIRED_IMPORTS.lookup component).getD "") code then
      some ("Missing import for component: " ++ component)
    else none

/-- `CodeValidator._check_props`. -/
def check_props (code : String) : List String :=
  (if pyIn "style=\x7b\x7b" code ∨ pyIn "style=\x7b" code then
    ["Inline styles detected - use Tailwind classes instead"] else []) ++
  (if ¬ pyIn "className=" code then
    ["No className detected - consider adding Tailwind classes"] else [])

/-- `CodeValidator._check_best_practices`. -/
def check_best_practices (code : String) : List String :=
  (if pyIn ".map(" code ∧ ¬ pyIn "key=" code then
    ["Consider adding 'key' prop when rendering lists"] else []) ++
  (if ¬ pascalHit code.data then ["Component name should be PascalCase"] else []) ++
  (if pyIn "function" code ∧ pyIn "props." code then
    ["Consider destructuring props in function signature"] else [])

/-- The button-accessibility suggestion text. -/
def buttonSuggestion : String := "Add aria-label or text content to buttons"

/-- `CodeValidator._check_accessibility`: for each `<Button…>` match the
suggestion fires only when the match contains neither `aria-label` nor
`>` — and every match ends in `>`; plus the `<img` alt check. -/
def check_accessibility (code : String) : List String :=
  let buttons := buttonTags code.data
  (buttons.filterMap fun button =>
    if ¬ strContains "aria-label".data button ∧ ¬ strContains ">".data button then
      some buttonSuggestion
    else none) ++
  (if pyIn "<img" code ∧ ¬ pyIn "alt=" code then
    ["Add alt text to images for accessibility"] else [])

/-- `CodeValidator.validate`. -/
def validate (code : String) : ValidationResult :=
  let errors := check_syntax code ++ check_components code
  let warnings := check_imports code ++ check_props code
  let suggestions := check_best_practices code ++ check_accessibility code
  { is_valid := errors.isEmpty, errors := errors,
    warnings := warnings, suggestions := suggestions }

/-- `CodeValidator.fix_common_issues`: the two `re.sub` repairs. -/
def fix_common_issues (code : String) : String :=
  String.mk (fixSpacing (fixImports code.data))

/-! ## The pipeline (`main.py`, `generate_ui`): parse → plan → generate
→ validate, with the single auto-fix retry when invalid.  (`main.py`
rejects empty prompts before this point; the rejection is the caller's,
not the pipeline's.) -/

structure PipelineResult where
  code : String
  explanation : String
  validation : ValidationResult
deriving Repr

def generate_ui (prompt : String) : PipelineResult :=
  let intent := parse prompt
  let plan := create_plan intent
  let code := generate plan
  let validation := validate code
  if ¬ validation.is_valid then
    let code2 := fix_common_issues code
    { code := code2, explanation := plan.reasoning, validation := validate code2 }
  else
    { code := code, explanation := plan.reasoning, validation := validation }

/-! ## Supporting lemmas -/

theorem strContains_append_left {n t : List Char} (h : strContains n t = true)
    (s : List Char) : strContains n (s ++ t) = true := by
  induction s with
  | nil => simpa using h
  | cons c s' ih =>
    rw [List.cons_append, strContains]
    simp only [Bool.or_eq_true]
    exact Or.inr ih

theorem strContains_single {c : Char} : ∀ {l : List Char},
    c ∈ l → strContains [c] l = true := by
  intro l
  induction l with
  | nil => intro h; simp at h
  | cons d t ih =>
    intro h
    rw [strContains]
    simp only [Bool.or_eq_true]
    rcases List.mem_cons.1 h with h1 | h2
    · subst h1
      left
      simp [List.isPrefixOf]
    · exact Or.inr (ih h2)

/-- Every match of the `<Button[^>]*>` scan contains `'>'` (each match
ends with the consumed `'>'`). -/
theorem buttonTagsAux_mem_gt :
    ∀ (fuel : Nat) (l : List Char), ∀ b ∈ buttonTagsAux fuel l, '>' ∈ b := by
  intro fuel
  induction fuel with
  | zero => intro l b hb; simp [buttonTagsAux] at hb
  | succ n ih =>
    intro l b hb
    match l with
    | [] => simp [buttonTagsAux] at hb
    | c :: rest =>
      rw [buttonTagsAux] at hb
      split at hb
      · split at hb
        · rcases List.mem_cons.1 hb with h1 | h2
          · subst h1
            simp
          · exact ih _ b h2
        · exact ih _ b hb
      · exact ih _ b hb

theorem buttonTags_mem_gt (l : List Char) : ∀ b ∈ buttonTags l, '>' ∈ b :=
  fun b hb => buttonTagsAux_mem_gt l.length l b hb

theorem mem_pyDedupAux :
    ∀ (fuel : Nat) (l : List String) (a : String), a ∈ pyDedupAux fuel l → a ∈ l := by
  intro fuel
  induction fuel with
  | zero => intro l a h; simp [pyDedupAux] at h
  | succ n ih =>
    intro l a h
    match l with
    | [] => simp [pyDedupAux] at h
    | x :: r =>
      rw [pyDedupAux] at h
      rcases List.mem_cons.1 h with h1 | h2
      · simp [h1]
      · exact List.mem_cons_of_mem x (List.mem_filter.1 (ih _ a h2)).1

theorem pyDedupAux_nodup : ∀ (fuel : Nat) (l : List String), (pyDedupAux fuel l).Nodup := by
  intro fuel
  induction fuel with
  | zero => intro l; simp [pyDedupAux]
  | succ n ih =>
    intro l
    match l with
    | [] => simp [pyDedupAux]
    | x :: r =>
      rw [pyDedupAux, List.nodup_cons]
      refine ⟨fun hmem => ?_, ih _⟩
      have := (List.mem_filter.1 (mem_pyDedupAux _ _ _ hmem)).2
      simp at this

theorem pyDedup_nodup (l : List String) : (pyDedup l).Nodup :=
  pyDedupAux_nodup l.length l

theorem mkImport_data (t : String) :
    (mkImport t).data =
      "import ".data ++ (t.data ++ (" from '@/components/ui/".data ++ (t.data ++ "';".data))) := by
  simp [mkImport, String.data_append]

theorem mkImport_length (t : String) :
    (mkImport t).data.length = 2 * t.data.length + 32 := by
  rw [mkImport_data]
  simp only [List.length_append, List.length_cons, List.length_nil]
  omega

theorem mkImport_inj : Function.Injective mkImport := by
  intro a b h
  have hlen := congrArg (fun s => s.data.length) h
  simp only [mkImport_length] at hlen
  have hab : a.data.length = b.data.length := by omega
  have hd := congrArg String.data h
  rw [mkImport_data, mkImport_data] at hd
  have hd' := List.append_cancel_left hd
  exact String.ext (List.append_inj hd' hab).1

theorem mkImport_ne_recharts (t : String) : mkImport t ≠ rechartsImport := by
  intro h
  have hlen := congrArg (fun s => s.data.length) h
  simp only [mkImport_length] at hlen
  have h96 : rechartsImport.data.length = 96 := rfl
  rw [h96] at hlen
  have ht32 : t.data.length = 32 := by omega
  have hd := congrArg String.data h
  rw [mkImport_data] at hd
  have hr : rechartsImport.data =
      "import ".data ++ List.drop 7 rechartsImport.data := rfl
  rw [hr] at hd
  have hd' := List.append_cancel_left hd
  have hsplit : List.drop 7 rechartsImport.data =
      List.take 32 (List.drop 7 rechartsImport.data) ++
        List.drop 32 (List.drop 7 rechartsImport.data) :=
    (List.take_append_drop 32 _).symm
  rw [hsplit] at hd'
  have hlen2 : t.data.length = (List.take 32 (List.drop 7 rechartsImport.data)).length := by
    rw [ht32]
    rfl
  have hteq : t = String.mk (List.take 32 (List.drop 7 rechartsImport.data)) :=
    String.ext (List.append_inj hd' hlen2).1
  rw [hteq] at h
  exact absurd h (by decide)

theorem count_mkImport_map_recharts (kinds : List String) :
    List.count rechartsImport (kinds.map mkImport) = 0 := by
  rw [List.count_eq_zero]
  intro hmem
  rcases List.mem_map.1 hmem with ⟨k, _, hk⟩
  exact mkImport_ne_recharts k hk

theorem infer_components_ne_nil (ui_type : String) :
    infer_components_from_ui_type ui_type ≠ [] := by
  unfold infer_components_from_ui_type
  split_ifs <;> simp

theorem extract_components_ne_nil (t : String) : extract_components t ≠ [] := by
  unfold extract_components
  split
  · exact infer_components_ne_nil _
  · next h =>
    intro hn
    rw [hn] at h
    simp at h

theorem calculate_confidence_bounds (action ui_type : String) (components : List String)
    (hc : components ≠ []) :
    (7 : ℚ)/10 ≤ calculate_confidence action ui_type components ∧
      calculate_confidence action ui_type components ≤ 1 := by
  unfold calculate_confidence
  have hcc : ¬ components.isEmpty = true := by
    simp only [List.isEmpty_iff]
    exact hc
  rw [if_pos hcc]
  split_ifs <;> constructor <;> rw [min_def] <;> split_ifs <;> norm_num

theorem getTemplate_eq_form (u : String) (h1 : u ≠ "dashboard") (h2 : u ≠ "form")
    (h3 : u ≠ "table") (h4 : u ≠ "navbar") : getTemplate u = formTemplate := by
  unfold getTemplate TEMPLATES
  have e1 : (u == "dashboard") = false := beq_eq_false_iff_ne.mpr h1
  have e2 : (u == "form") = false := beq_eq_false_iff_ne.mpr h2
  have e3 : (u == "table") = false := beq_eq_false_iff_ne.mpr h3
  have e4 : (u == "navbar") = false := beq_eq_false_iff_ne.mpr h4
  simp [List.lookup, e1, e2, e3, e4]

theorem pyIn_append_right {n b : String} (h : pyIn n b = true) (a : String) :
    pyIn n (a ++ b) = true := by
  unfold pyIn at *
  rw [String.data_append]
  exact strContains_append_left h a.data

/-- The distinct kinds of a plan's components, in first-occurrence order. -/
def plannedKinds (intent : Intent) : List String :=
  pyDedup ((create_plan intent).components.map ComponentPlan.type)

/-- A concrete Intent whose `ui_type` has no registered template. -/
def cardIntent : Intent :=
  { primary_action := "create", ui_type := "card", components := [],
    layout := "flex", modifiers := {}, confidence := 0.7 }

/-- A concrete Intent selecting the dashboard template's defaults. -/
def dashDefaultsIntent : Intent :=
  { primary_action := "create", ui_type := "dashboard", components := [],
    layout := "flex", modifiers := {}, confidence := 0.9 }

/-! ## The claims -/

/-- C1, counterexample: for the prompt "Create a dashboard with 3 cards
and 2 charts" the extracted layout is "grid", not "flex" as the claim
states — the word "cards" in the prompt is a trigger of the `grid`
layout category, so a layout keyword IS present. -/
theorem C1_layout_counterexample :
    (parse "Create a dashboard with 3 cards and 2 charts").layout = "grid" ∧
    ¬ (parse "Create a dashboard with 3 cards and 2 charts").layout = "flex" := by
  decide

/-- C1, amended: for the prompt "Create a dashboard with 3 cards and 2
charts", `parse` returns primary_action "create", ui_type "dashboard",
components exactly ["Card", "Chart"], layout "grid" (the trigger "cards"
matches the grid layout category), and modifiers containing count = 3;
and `create_plan` on that Intent produces exactly two ComponentPlans —
one Card and one Chart — bypassing the dashboard template's
multi-instance defaults because `intent.components` is non-empty. -/
theorem C1_roundtrip :
    (parse "Create a dashboard with 3 cards and 2 charts").primary_action = "create" ∧
    (parse "Create a dashboard with 3 cards and 2 charts").ui_type = "dashboard" ∧
    (parse "Create a dashboard with 3 cards and 2 charts").components = ["Card", "Chart"] ∧
    (parse "Create a dashboard with 3 cards and 2 charts").layout = "grid" ∧
    (parse "Create a dashboard with 3 cards and 2 charts").modifiers.count = some 3 ∧
    (create_plan (parse "Create a dashboard with 3 cards and 2 charts")).components.map
        ComponentPlan.type = ["Card", "Chart"] ∧
    (create_plan (parse "Create a dashboard with 3 cards and 2 charts")).components.length = 2 := by
  decide

/-- C2: the full pipeline `generate_ui` (parse → create_plan → generate
→ validate, with the single auto-fix retry) does NOT converge to a valid
result for the dashboard and table example prompts: the emitted
`</Card.Title>`-style closing tags and the malformed Table snippet leave
a "Mismatched JSX tags" error that `fix_common_issues` cannot repair.
Only the form prompt validates cleanly. -/
theorem C2_validity_convergence :
    (generate_ui "Create a dashboard with 3 cards and 2 charts").validation.is_valid = false ∧
    (generate_ui "Create a dashboard with 3 cards and 2 charts").validation.errors =
      ["Mismatched JSX tags: 5 open, 3 close"] ∧
    (generate_ui "Make a data table with 5 columns").validation.is_valid = false ∧
    (generate_ui "Make a data table with 5 columns").validation.errors =
      ["Mismatched JSX tags: 2 open, 1 close"] ∧
    (generate_ui "Build a login form with email and password").validation.is_valid = true ∧
    (generate_ui "Build a login form with email and password").validation.errors = [] := by
  decide

/-- C3, counterexample: a Table ComponentPlan with empty `columns` and
empty `data` emits `<Table>\n  columns={[]}\n  data={data}\n/>`, and the
serialised data (`json.dumps([]) = "[]"`) DOES appear in that snippet
(inside `columns={[]}`), so "never appears anywhere in the emitted
snippet, regardless of the plan's data value" fails as stated. -/
theorem C3_serialized_data_appears :
    generate_component_jsx
        (ComponentPlan.mk "Table" { columns := some [], data := some [] } [] ⟨0, 0⟩) =
      "<Table>\n  columns=\x7b[]\x7d\n  data=\x7bdata\x7d\n/>" ∧
    pyIn
        (dumpsRows ((ComponentPlan.mk "Table" { columns := some [], data := some [] }
          [] ⟨0, 0⟩).props.data.getD []))
        (generate_component_jsx
          (ComponentPlan.mk "Table" { columns := some [], data := some [] } [] ⟨0, 0⟩)) =
      true := by
  decide

/-- C3, amended: the Table snippet always contains the literal
identifier reference `data={data}` and is entirely independent of
`props['data']` — the serialised data string is computed and discarded,
never interpolated (its text can still occur coincidentally, e.g. `[]`
inside `columns={[]}` when both are empty).  In particular the default
sample rows' serialisation never appears in the default Table
snippet. -/
theorem C3_table_data_discarded :
    (∀ props : Props,
      generate_table props =
        "<Table>\n  columns=\x7b[" ++
          String.intercalate ", " ((props.columns.getD ["Column 1", "Column 2"]).map colDef) ++
          "]\x7d\n  data=\x7bdata\x7d\n/>" ∧
      pyIn "data=\x7bdata\x7d" (generate_table props) = true) ∧
    pyIn (dumpsRows ((base_props "Table" {}).data.getD []))
        (generate_table (base_props "Table" {})) = false := by
  refine ⟨fun props => ⟨rfl, ?_⟩, by decide⟩
  have he : generate_table props =
      ("<Table>\n  columns=\x7b[" ++
        String.intercalate ", " ((props.columns.getD ["Column 1", "Column 2"]).map colDef)) ++
        "]\x7d\n  data=\x7bdata\x7d\n/>" := rfl
  rw [he]
  exact pyIn_append_right (by decide) _

/-- C4, counterexample: on the input "3 cards" the standalone parser
extracts count = 3 while the copy inlined in `planner.py` and
`backend/code_generator.py` extracts no count: its count regex is
doubly escaped, so it never matches ordinary digit text.  The two
parsers therefore do not return the same Intent. -/
theorem C4_copy_differs :
    (parse "3 cards").modifiers.count = some 3 ∧
    (parse_copy "3 cards").toOption.map (fun i => i.modifiers.count) = some none ∧
    (parse_copy "3 cards").toOption ≠ some (parse "3 cards") := by
  decide

/-- C4, amended: the inlined parser copies agree with the standalone
parser on every field — action, ui_type, components, layout, variant,
color, size and confidence — except the count modifier, which the copies
never extract: when their doubly escaped regex finds no match (any
ordinary text) the copy returns the standalone parser's Intent with the
count removed, and when it does match (text containing a literal
backslash-b, backslash-d-run, backslash-b) the copy raises, since
`int()` rejects the backslash-led capture. -/
theorem C4_copy_agreement (s : String) :
    (firstEscNum (pyStrip (pyLower s)).data = none →
      parse_copy s =
        Except.ok { parse s with
          modifiers := { (parse s).modifiers with count := none } }) ∧
    (∀ cap, firstEscNum (pyStrip (pyLower s)).data = some cap →
      parse_copy s =
        Except.error ("invalid literal for int() with base 10: " ++ String.mk cap)) := by
  constructor
  · intro h
    simp only [parse_copy, extract_modifiers_copy, h]
    rfl
  · intro cap h
    simp only [parse_copy, extract_modifiers_copy, h]

/-- C5: the button-accessibility suggestion is dead code — every match
of the `<Button[^>]*>` scan ends with the consumed `'>'`, so the
source's `'>' not in button` condition is always false and the
suggestion is never emitted, not even for a Button opening tag with
neither aria-label nor following text. -/
theorem C5_button_suggestion_never_emitted :
    check_accessibility "<Button variant=\"primary\"></Button>" = [] ∧
    ∀ code : String, buttonSuggestion ∉ check_accessibility code := by
  constructor
  · decide
  · intro code hmem
    unfold check_accessibility at hmem
    rcases List.mem_append.1 hmem with hL | hR
    · rcases List.mem_filterMap.1 hL with ⟨button, hbmem, hcond⟩
      split at hcond
      · next hc =>
        have hgt : strContains ">".data button = true :=
          strContains_single (buttonTags_mem_gt code.data button hbmem)
        exact hc.2 hgt
      · cases hcond
    · split at hR
      · simp only [List.mem_singleton] at hR
        exact absurd hR (by decide)
      · simp at hR

/-- C6: the imports of every plan are one `mkImport` line per distinct
planned kind (first-occurrence order; each kind's line appears exactly
once in the whole list) plus the single recharts line appended if and
only if a Chart kind is planned — and the recharts line appears exactly
once then, no matter how many Chart instances exist. -/
theorem C6_import_derivation (intent : Intent) :
    (create_plan intent).imports =
      (plannedKinds intent).map mkImport ++
        (if (plannedKinds intent).contains "Chart" then [rechartsImport] else []) ∧
    (∀ k ∈ plannedKinds intent,
      List.count (mkImport k) (create_plan intent).imports = 1) ∧
    List.count rechartsImport (create_plan intent).imports =
      (if (plannedKinds intent).contains "Chart" then 1 else 0) := by
  have he : (create_plan intent).imports =
      (plannedKinds intent).map mkImport ++
        (if (plannedKinds intent).contains "Chart" then [rechartsImport] else []) := rfl
  refine ⟨he, ?_, ?_⟩
  · intro k hk
    rw [he, List.count_append]
    have h1 : List.count (mkImport k) ((plannedKinds intent).map mkImport) = 1 := by
      rw [List.count_map_of_injective _ mkImport mkImport_inj]
      exact List.count_eq_one_of_mem (pyDedup_nodup _) hk
    have h2 : List.count (mkImport k)
        (if (plannedKinds intent).contains "Chart" then [rechartsImport] else []) = 0 := by
      split
      · rw [List.count_eq_zero]
        intro hm
        simp only [List.mem_singleton] at hm
        exact mkImport_ne_recharts k hm
      · simp
    rw [h1, h2]
  · rw [he, List.count_append, count_mkImport_map_recharts]
    split <;> simp

/-- C7: an Intent whose ui_type has no registered template (anything
outside dashboard, form, table, navbar) falls back to the form template:
the plan carries the form layout "stack" and the form container props,
and — when the Intent names no components — the form template's default
components (three Inputs with variant "default" and one primary
Button). -/
theorem C7_template_fallback (intent : Intent)
    (h1 : intent.ui_type ≠ "dashboard") (h2 : intent.ui_type ≠ "form")
    (h3 : intent.ui_type ≠ "table") (h4 : intent.ui_type ≠ "navbar") :
    (create_plan intent).layout_type = "stack" ∧
    (create_plan intent).container_props =
      [("className", "max-w-md mx-auto p-6 space-y-4")] ∧
    (intent.components = [] →
      (create_plan intent).components =
        [ComponentPlan.mk "Input"
          { variant := some "default", label := some "Input Label",
            placeholder := some "Enter value..." } [] ⟨0, 0⟩,
         ComponentPlan.mk "Input"
          { variant := some "default", label := some "Input Label",
            placeholder := some "Enter value..." } [] ⟨0, 1⟩,
         ComponentPlan.mk "Input"
          { variant := some "default", label := some "Input Label",
            placeholder := some "Enter value..." } [] ⟨0, 2⟩,
         ComponentPlan.mk "Button"
          { variant := some "primary", children := some "Click me" } [] ⟨0, 0⟩]) := by
  have ht : getTemplate intent.ui_type = formTemplate :=
    getTemplate_eq_form _ h1 h2 h3 h4
  refine ⟨?_, ?_, ?_⟩
  · have hl : (create_plan intent).layout_type = (getTemplate intent.ui_type).layout := rfl
    rw [hl, ht]
    rfl
  · have hc : (create_plan intent).container_props =
        (getTemplate intent.ui_type).container := rfl
    rw [hc, ht]
    rfl
  · intro hempty
    have hcc : (create_plan intent).components =
        plan_components intent (getTemplate intent.ui_type) := rfl
    rw [hcc, ht]
    simp only [plan_components, hempty]
    rfl

/-- C7, witness: the card-type Intent (no registered template, no named
components) resolves to the form template. -/
theorem C7_template_fallback_witness :
    (create_plan cardIntent).layout_type = "stack" ∧
    (create_plan cardIntent).container_props =
      [("className", "max-w-md mx-auto p-6 space-y-4")] ∧
    (cardIntent.components = [] →
      (create_plan cardIntent).components =
        [ComponentPlan.mk "Input"
          { variant := some "default", label := some "Input Label",
            placeholder := some "Enter value..." } [] ⟨0, 0⟩,
         ComponentPlan.mk "Input"
          { variant := some "default", label := some "Input Label",
            placeholder := some "Enter value..." } [] ⟨0, 1⟩,
         ComponentPlan.mk "Input"
          { variant := some "default", label := some "Input Label",
            placeholder := some "Enter value..." } [] ⟨0, 2⟩,
         ComponentPlan.mk "Button"
          { variant := some "primary", children := some "Click me" } [] ⟨0, 0⟩]) :=
  C7_template_fallback cardIntent (by decide) (by decide) (by decide) (by decide)

/-- C8: a validation result is valid exactly when its error list is
empty; `validate` is a pure function of the code text alone (no state is
carried between calls in the source — the validator object holds no
fields), so the flag is recomputed from the current input on each
call. -/
theorem C8_is_valid_iff_errors_empty (code : String) :
    ((validate code).is_valid = true) ↔ (validate code).errors = [] :=
  List.isEmpty_iff

/-- C9: with no user-named components, the plan expands each template
default definition to `count` instances, each carrying modifiers
`{variant := definition.variant or "default"}`, with the position
computed from the index within that definition's own count (row = i / 3,
col = i % 3, restarting at 0 for every definition) — so instances from
different definitions can collide, as the dashboard defaults show: the
first Card and the first Chart both sit at row 0, col 0. -/
theorem C9_default_expansion (intent : Intent) (h : intent.components = []) :
    (create_plan intent).components =
      (getTemplate intent.ui_type).default_components.flatMap (fun comp_def =>
        (List.range (comp_def.count.getD 1)).map fun i =>
          create_component_plan comp_def.type
            { variant := some (comp_def.variant.getD "default") }
            { row := i / 3, col := i % 3 }) ∧
    (create_plan dashDefaultsIntent).components.map ComponentPlan.position =
      [⟨0, 0⟩, ⟨0, 1⟩, ⟨0, 2⟩, ⟨0, 0⟩, ⟨0, 1⟩] := by
  constructor
  · have hcc : (create_plan intent).components =
        plan_components intent (getTemplate intent.ui_type) := rfl
    rw [hcc]
    simp only [plan_components, h]
  · rfl

/-- C9, witness: the dashboard-defaults Intent names no components and
expands to 3 Cards and 2 Charts with per-definition position restart. -/
theorem C9_default_expansion_witness :
    dashDefaultsIntent.components = [] ∧
    ((create_plan dashDefaultsIntent).components =
      (getTemplate dashDefaultsIntent.ui_type).default_components.flatMap (fun comp_def =>
        (List.range (comp_def.count.getD 1)).map fun i =>
          create_component_plan comp_def.type
            { variant := some (comp_def.variant.getD "default") }
            { row := i / 3, col := i % 3 }) ∧
    (create_plan dashDefaultsIntent).components.map ComponentPlan.position =
      [⟨0, 0⟩, ⟨0, 1⟩, ⟨0, 2⟩, ⟨0, 0⟩, ⟨0, 1⟩]) :=
  ⟨rfl, C9_default_expansion dashDefaultsIntent rfl⟩

/-- C10: for every input string the parsed components list is non-empty
(when no component keyword matches, the ui-type default table supplies
at least one kind, with ["Card"] for unknown types), and consequently
the confidence is always between 0.7 and 1.0 — never the bare 0.5
base. -/
theorem C10_components_nonempty_confidence (s : String) :
    (parse s).components ≠ [] ∧
    (7 : ℚ)/10 ≤ (parse s).confidence ∧ (parse s).confidence ≤ 1 := by
  have hc : (parse s).components = extract_components (pyStrip (pyLower s)) := rfl
  have hf : (parse s).confidence =
      calculate_confidence (extract_action (pyStrip (pyLower s)))
        (extract_ui_type (pyStrip (pyLower s)))
        (extract_components (pyStrip (pyLower s))) := rfl
  refine ⟨?_, ?_, ?_⟩
  · rw [hc]
    exact extract_components_ne_nil _
  · rw [hf]
    exact (calculate_confidence_bounds _ _ _ (extract_components_ne_nil _)).1
  · rw [hf]
    exact (calculate_confidence_bounds _ _ _ (extract_components_ne_nil _)).2
